import Mathlib

/-! smart-tube: sampling, smoothing and refresh scheduling

A shallow embedding of `src/smart-tube.cpp`: the global variables become the fields of
`State`, every call into a library (display, serial port, network clients, publishing
service) is recorded in `State.trace`, and every value the program reads from outside
(`analogRead`, `millis`, the UI frame state, the formatted time) is an argument of the
function that reads it.

Platform conventions used by the embedding (ESP8266 toolchain):
* `int`, `long` are 32-bit two's complement, `unsigned long` is 32-bit;
* `float` is IEEE-754 binary32, each operation rounded to nearest, ties to even
  (`f32`); only magnitudes in the normal range occur for an `int` reading.

Two library pieces the program uses are not part of the repository and are modelled
from the specification: the `MovingAverageFilter` class and `round`.
-/

namespace SmartTube

/-! ## Machine numbers -/

/-- The `INT32_MAX` constant. -/
def INT32_MAX : Int := 2147483647

/-- The `INT32_MIN` constant. -/
def INT32_MIN : Int := -2147483648

/-- A value of C type `int`. -/
def isInt (v : Int) : Prop := INT32_MIN ≤ v ∧ v ≤ INT32_MAX

instance (v : Int) : Decidable (isInt v) :=
  inferInstanceAs (Decidable (INT32_MIN ≤ v ∧ v ≤ INT32_MAX))

/-- Conversion `unsigned long → long`, as in `lastTemperatureUpdate = millis()`. -/
def toLong (n : Nat) : Int :=
  if n % 2 ^ 32 < 2 ^ 31 then ((n % 2 ^ 32 : Nat) : Int) else ((n % 2 ^ 32 : Nat) : Int) - 2 ^ 32

/-- Conversion `long → unsigned long`, as applied to `lastTemperatureUpdate` in
`millis() - lastTemperatureUpdate`. -/
def toULong (v : Int) : Nat := (v % 2 ^ 32).toNat

/-- The value of `millis() - lastTemperatureUpdate`: an `unsigned long` subtraction. -/
def elapsed (now : Nat) (lastTemperatureUpdate : Int) : Nat :=
  (now % 2 ^ 32 + 2 ^ 32 - toULong lastTemperatureUpdate) % 2 ^ 32

/-- Round a rational to the nearest integer, ties to the even neighbour. -/
def roundTiesEven (q : ℚ) : Int :=
  if q - ⌊q⌋ < 1 / 2 then ⌊q⌋
  else if 1 / 2 < q - ⌊q⌋ then ⌊q⌋ + 1
  else if ⌊q⌋ % 2 = 0 then ⌊q⌋ else ⌊q⌋ + 1

/-- The binary32 value nearest to `x` (24 significant bits, ties to even), for `x` in the
normal range of the format. -/
def f32 (x : ℚ) : ℚ :=
  if x = 0 then 0
  else roundTiesEven (x / 2 ^ (Int.log 2 |x| - 23)) * 2 ^ (Int.log 2 |x| - 23)

/-- The expression `(float)value / 1023 * 3 * 100` of `updateTemperature`: the operands
`1023`, `3`, `100` are converted to `float` exactly, every operation rounds. -/
def conv (value : Int) : ℚ :=
  f32 (f32 (f32 (f32 (value : ℚ) / 1023) * 3) * 100)

/-- Modelled from the spec: `round` (from the platform headers, not in the repository),
"rounded to nearest integer"; halves go away from zero as for C's `round`. -/
def round (x : ℚ) : Int :=
  if 0 ≤ x then ⌊x + 1 / 2⌋ else ⌈x - 1 / 2⌉

/-! ## The moving-average filter -/

/-- The constant `TEMPERATURE_MA_POINT_COUNT = 3 * 60 / 10`. -/
def TEMPERATURE_MA_POINT_COUNT : Nat := 3 * 60 / 10

/-- Modelled from the spec: the `MovingAverageFilter` class (library `MovingAverageFilter.h`,
not in the repository): "a fixed-size sliding window of the last N raw samples".
`values` is the window, oldest sample first. -/
structure MovingAverageFilter where
  dataPointsCount : Nat
  values : List ℚ
  deriving DecidableEq

/-- The last `n` entries of a list. -/
def lastN (n : Nat) (l : List ℚ) : List ℚ := l.drop (l.length - n)

/-- The arithmetic mean of a list of samples. -/
def mean (l : List ℚ) : ℚ := l.sum / (l.length : ℚ)

/-- Modelled from the spec: the constructor `MovingAverageFilter(n)`, a window of `n` slots
into which nothing has been pushed yet. -/
def MovingAverageFilter.new (n : Nat) : MovingAverageFilter :=
  { dataPointsCount := n, values := [] }

/-- Modelled from the spec: `MovingAverageFilter::process`, which "pushes exactly one new
sample, dropping the oldest" and returns "the arithmetic mean of the current window
contents". -/
def MovingAverageFilter.process (f : MovingAverageFilter) (x : ℚ) : MovingAverageFilter × ℚ :=
  ({ f with values := lastN f.dataPointsCount (f.values ++ [x]) },
   mean (lastN f.dataPointsCount (f.values ++ [x])))

/-! ## Program state and library calls -/

/-- Text alignment constants of the display library. -/
inductive TextAlignment
  | TEXT_ALIGN_LEFT | TEXT_ALIGN_CENTER | TEXT_ALIGN_RIGHT
  deriving DecidableEq, Repr

/-- Fonts from `fonts.h` and the display library. -/
inductive Font
  | ArialMT_Plain_10 | ArialMT_Plain_24 | Meteocons_Plain_21 | Meteocons_Plain_42
  deriving DecidableEq, Repr

/-- Calls on the `OLEDDisplay` object. -/
inductive DisplayCall
  | clear
  | setTextAlignment (a : TextAlignment)
  | setFont (f : Font)
  | setColorWhite
  | drawString (x y : Int) (text : String)
  | drawProgressBar (x y width height percentage : Int)
  | drawHorizontalLine (x y length : Int)
  | flipScreenVertically
  | display
  deriving DecidableEq, Repr

/-- Calls the program makes into its collaborators, in program order. -/
inductive Event
  | display (c : DisplayCall)
  | serialPrint (text : String)
  | serialPrintFloat (x : ℚ)
  | serialPrintlnInt (v : Int)
  | analogRead
  | timeClientUpdateTime
  | updateConditions (apiKey language country city : String)
  | updateForecast (apiKey language country city : String)
  | serviceSetTemperature (t : Int)
  | serviceLoop
  | uiUpdate
  | delay (ms : Int)
  deriving DecidableEq

/-- The `frameState` field of the UI library's state. -/
inductive FrameState
  | IN_TRANSITION | FIXED
  deriving DecidableEq, Repr

/-- The global variables of the sketch, plus the trace of library calls made so far. -/
structure State where
  readyForWeatherUpdate : Bool
  lastUpdate : String
  lastTemperatureUpdate : Int
  temperature : Int
  temperatureMA : MovingAverageFilter
  trace : List Event
  deriving DecidableEq

/-- The globals as initialised at their definitions. -/
def initialState : State :=
  { readyForWeatherUpdate := false
    lastUpdate := "--"
    lastTemperatureUpdate := 0
    temperature := INT32_MAX
    temperatureMA := MovingAverageFilter.new TEMPERATURE_MA_POINT_COUNT
    trace := [] }

def WUNDERGRROUND_API_KEY : String := "2d4a4e7587426081"
def WUNDERGRROUND_LANGUAGE : String := "EN"
def WUNDERGROUND_COUNTRY : String := "CN"
def WUNDERGROUND_CITY : String := "Nanjing"

/-- Append library calls to the trace. -/
def State.emit (s : State) (es : List Event) : State :=
  { s with trace := s.trace ++ es }

/-! ## The functions of the sketch -/

/-- The function `drawProgress`. -/
def drawProgress (percentage : Int) (label : String) (s : State) : State :=
  s.emit [ .display .clear,
           .display (.setTextAlignment .TEXT_ALIGN_CENTER),
           .display (.setFont .ArialMT_Plain_10),
           .display (.drawString 64 10 label),
           .display (.drawProgressBar 2 28 124 10 percentage),
           .display .flipScreenVertically,
           .display .display ]

/-- One pass of `temperature = round(temperatureMA.process(temp));`. -/
def processStep (temp : ℚ) (s : State) : State :=
  { s with temperatureMA := (s.temperatureMA.process temp).1
           temperature := round (s.temperatureMA.process temp).2 }

/-- The loop `for (int i = 0; i < TEMPERATURE_MA_POINT_COUNT; i++)` around `processStep`. -/
def fillLoop (temp : ℚ) : Nat → State → State
  | 0, s => s
  | n + 1, s => fillLoop temp n (processStep temp s)

/-- The function `updateTemperature`; `value` is what `analogRead(A0)` returns and `now`
what `millis()` returns. -/
def updateTemperature (value : Int) (now : Nat) (s : State) : State :=
  let temp := conv value
  let s1 := s.emit [.analogRead, .serialPrint "Temperature: ", .serialPrintFloat temp,
                    .serialPrint " / "]
  let s2 :=
    if s1.temperature = INT32_MAX then fillLoop temp TEMPERATURE_MA_POINT_COUNT s1
    else processStep temp s1
  let s3 := s2.emit [.serviceSetTemperature s2.temperature]
  let s4 := { s3 with lastTemperatureUpdate := toLong now }
  s4.emit [.serialPrintlnInt s4.temperature]

/-- Lines 186-194 of `updateData`: the three remote refreshes, each announced on the display,
and the announcement of the temperature step. -/
def updateDataHead (s : State) : State :=
  let s := drawProgress 10 "Updating time..." s
  let s := s.emit [.timeClientUpdateTime]
  let s := drawProgress 30 "Updating conditions..." s
  let s := s.emit [.updateConditions WUNDERGRROUND_API_KEY WUNDERGRROUND_LANGUAGE
                      WUNDERGROUND_COUNTRY WUNDERGROUND_CITY]
  let s := drawProgress 50 "Updating forecasts..." s
  let s := s.emit [.updateForecast WUNDERGRROUND_API_KEY WUNDERGRROUND_LANGUAGE
                      WUNDERGROUND_COUNTRY WUNDERGROUND_CITY]
  drawProgress 80 "Updating temperature..." s

/-- The function `updateData`; `formattedTime` is what `timeClient.getFormattedTime()`
returns, `value` and `now` are read by the nested `updateTemperature`. -/
def updateData (formattedTime : String) (value : Int) (now : Nat) (s : State) : State :=
  let s := updateDataHead s
  let s := updateTemperature value now s
  let s := { s with lastUpdate := formattedTime }
  let s := { s with readyForWeatherUpdate := false }
  let s := drawProgress 100 "Done..." s
  s.emit [.delay 100]

/-- The ticker callback `setReadyForWeatherUpdate`. -/
def setReadyForWeatherUpdate (s : State) : State :=
  { s.emit [.serialPrint "Setting readyForUpdate to true"] with readyForWeatherUpdate := true }

/-- Everything one iteration of `loop` reads from outside, in the order it is read. -/
structure LoopInput where
  /-- the value of `ui.getUiState()->frameState` at the first line -/
  frameState : FrameState
  /-- what the nested `updateData` reads, when it runs -/
  dataTime : String
  dataValue : Int
  dataNow : Nat
  /-- the return value of `ui.update()` -/
  remainingTimeBudget : Int
  /-- the value of `millis()` in the sampling condition -/
  checkNow : Nat
  /-- what the `updateTemperature` of the sampling branch reads, when it runs -/
  tempValue : Int
  tempNow : Nat

/-- Lines 153-156 of `loop`: the gated full refresh. -/
def loopRefresh (inp : LoopInput) (s : State) : State :=
  if s.readyForWeatherUpdate && inp.frameState == FrameState.FIXED then
    updateData inp.dataTime inp.dataValue inp.dataNow s
  else s

/-- Lines 158-162 of `loop`: the UI step and the sleep of the remaining budget. -/
def loopUi (inp : LoopInput) (s : State) : State :=
  let s := s.emit [.uiUpdate]
  if inp.remainingTimeBudget > 0 then s.emit [.delay inp.remainingTimeBudget] else s

/-- The condition `lastTemperatureUpdate == 0 || millis() - lastTemperatureUpdate > 10 * 1000`. -/
def temperatureDue (now : Nat) (s : State) : Bool :=
  s.lastTemperatureUpdate == 0 || decide (elapsed now s.lastTemperatureUpdate > 10 * 1000)

/-- Lines 164-168 of `loop`: the gated temperature sample. -/
def loopSample (inp : LoopInput) (s : State) : State :=
  if temperatureDue inp.checkNow s then updateTemperature inp.tempValue inp.tempNow s else s

/-- The function `loop`. -/
def loop (inp : LoopInput) (s : State) : State :=
  (loopSample inp (loopUi inp (loopRefresh inp s))).emit [.serviceLoop]

/-- The function `drawIndoor`, as the list of display calls it makes. -/
def drawIndoor (x y : Int) (s : State) : List DisplayCall :=
  [ .setTextAlignment .TEXT_ALIGN_CENTER,
    .setFont .ArialMT_Plain_10,
    .drawString (64 + x) (5 + y) "Indoor",
    .setFont .ArialMT_Plain_24,
    if s.temperature ≠ INT32_MAX then
      .drawString (64 + x) (15 + y) (toString s.temperature ++ " °C")
    else
      .drawString (64 + x) (15 + y) "-- °C" ]

/-- The temperature part of `drawHeaderOverlay` (the call after `TEXT_ALIGN_RIGHT`). -/
def drawHeaderTemperature (s : State) : DisplayCall :=
  if s.temperature ≠ INT32_MAX then
    .drawString 128 54 (toString s.temperature ++ " °C")
  else
    .drawString 128 54 "-- °C"

/-! ## Runs and observations -/

/-- A sequence of calls to `updateTemperature`, one per `(analogRead, millis)` pair. -/
def runSampler : List (Int × Nat) → State → State
  | [], s => s
  | (value, now) :: rest, s => runSampler rest (updateTemperature value now s)

/-- What can happen between two points of the main program: the ticker fires, or one
iteration of `loop` runs. -/
inductive Step
  | tick
  | iter (inp : LoopInput)

/-- Execute one step. -/
def Step.run : Step → State → State
  | .tick, s => setReadyForWeatherUpdate s
  | .iter inp, s => loop inp s

/-- Execute a sequence of steps. -/
def runSteps : List Step → State → State
  | [], s => s
  | st :: rest, s => runSteps rest (st.run s)

/-- A step that leaves the display mid-transition as far as `loop` can see: the ticker
firing, or an iteration whose frame state is not `FIXED`. -/
def Step.midTransition : Step → Bool
  | .tick => true
  | .iter inp => inp.frameState != FrameState.FIXED

/-- Number of sensor reads in a trace: one per call of `updateTemperature`. -/
def samplerCalls (t : List Event) : Nat := t.count Event.analogRead

/-- Number of wall-clock refreshes in a trace: one per call of `updateData`. -/
def fullRefreshes (t : List Event) : Nat := t.count Event.timeClientUpdateTime

/-- The values passed to `service.setTemperature`, in order. -/
def published : List Event → List Int
  | [] => []
  | .serviceSetTemperature t :: rest => t :: published rest
  | _ :: rest => published rest

/-- The four data sources of a full refresh. -/
inductive RefreshStep
  | time | conditions | forecast | temperature
  deriving DecidableEq, Repr

/-- The refresh steps visible in a trace, in order: the time client call, the two weather
client calls, and the sensor read that opens `updateTemperature`. -/
def refreshSteps : List Event → List RefreshStep
  | [] => []
  | .timeClientUpdateTime :: rest => .time :: refreshSteps rest
  | .updateConditions _ _ _ _ :: rest => .conditions :: refreshSteps rest
  | .updateForecast _ _ _ _ :: rest => .forecast :: refreshSteps rest
  | .analogRead :: rest => .temperature :: refreshSteps rest
  | _ :: rest => refreshSteps rest

/-- The conversions of a sequence of `(reading, millis)` pairs. -/
def convAll (rs : List (Int × Nat)) : List ℚ := rs.map (fun p => conv p.1)

/-- The state of a primed sampler: the window holds the last 18 entries of the history `H`
and the stored temperature is the rounded mean of the window. -/
def Primed (H : List ℚ) (s : State) : Prop :=
  s.temperatureMA.dataPointsCount = TEMPERATURE_MA_POINT_COUNT ∧
  TEMPERATURE_MA_POINT_COUNT ≤ H.length ∧
  s.temperatureMA.values = lastN TEMPERATURE_MA_POINT_COUNT H ∧
  s.temperature = round (mean (lastN TEMPERATURE_MA_POINT_COUNT H))

/-! ## Concrete inputs -/

/-- An iteration that finds the display settled; the sampling condition reads
`millis() = 10001`. -/
def settledInput : LoopInput :=
  { frameState := .FIXED, dataTime := "12:00:00", dataValue := 341, dataNow := 10001,
    remainingTimeBudget := 0, checkNow := 10001, tempValue := 341, tempNow := 10001 }

/-- An iteration that finds the display between two frames. -/
def transitionInput : LoopInput :=
  { frameState := .IN_TRANSITION, dataTime := "12:00:00", dataValue := 341, dataNow := 10001,
    remainingTimeBudget := 20, checkNow := 10001, tempValue := 341, tempNow := 10001 }

/-- The state right after a first sample of 341 taken at `millis() = 1`. -/
def sampledState : State := updateTemperature 341 1 initialState


/-! ## Binary32 rounding -/

theorem roundTiesEven_sub_abs (q : ℚ) : |(roundTiesEven q : ℚ) - q| ≤ 1 / 2 := by
  have h1 : (⌊q⌋ : ℚ) ≤ q := Int.floor_le q
  have h2 : q < ⌊q⌋ + 1 := Int.lt_floor_add_one q
  unfold roundTiesEven
  split_ifs with ha hb hc
  · rw [abs_le]; constructor <;> linarith
  · rw [abs_le]; push_cast; constructor <;> linarith
  · rw [abs_le]; constructor <;> linarith
  · rw [abs_le]; push_cast; constructor <;> linarith

theorem roundTiesEven_nonneg {q : ℚ} (hq : 0 ≤ q) : 0 ≤ roundTiesEven q := by
  have h0 : 0 ≤ ⌊q⌋ := Int.floor_nonneg.mpr hq
  unfold roundTiesEven
  split_ifs <;> omega

theorem log2_eq {x : ℚ} {e : Int} (hlo : (2 : ℚ) ^ e ≤ x) (hhi : x < (2 : ℚ) ^ (e + 1)) :
    Int.log 2 x = e := by
  have hx : 0 < x := lt_of_lt_of_le (by positivity) hlo
  have h1 : e ≤ Int.log 2 x := (Int.zpow_le_iff_le_log (by norm_num) hx).mp (by exact_mod_cast hlo)
  have h2 : Int.log 2 x < e + 1 := (Int.lt_zpow_iff_log_lt (by norm_num) hx).mp (by exact_mod_cast hhi)
  omega

/-- Evaluation of `f32` once the binade of the argument is known. -/
theorem f32_eq {x : ℚ} (e : Int) (hlo : (2 : ℚ) ^ e ≤ |x|) (hhi : |x| < (2 : ℚ) ^ (e + 1)) :
    f32 x = roundTiesEven (x / 2 ^ (e - 23)) * 2 ^ (e - 23) := by
  have hx : x ≠ 0 := by
    intro h
    rw [h, abs_zero] at hlo
    exact absurd hlo (not_le.mpr (by positivity))
  unfold f32
  rw [if_neg hx, log2_eq hlo hhi]

/-- The relative error of one binary32 rounding is at most `2^-24`. -/
theorem f32_sub_abs_le (x : ℚ) : |f32 x - x| ≤ |x| / 2 ^ 24 := by
  by_cases hx : x = 0
  · simp [f32, hx]
  · have hpos : 0 < |x| := abs_pos.mpr hx
    have hlo : (2 : ℚ) ^ Int.log 2 |x| ≤ |x| := by
      have := Int.zpow_log_le_self (b := 2) (by norm_num) hpos
      exact_mod_cast this
    set e := Int.log 2 |x| with he
    have hu : (0 : ℚ) < 2 ^ (e - 23) := by positivity
    have hf : f32 x = roundTiesEven (x / 2 ^ (e - 23)) * 2 ^ (e - 23) := by
      unfold f32; rw [if_neg hx]
    have hr := roundTiesEven_sub_abs (x / 2 ^ (e - 23))
    have hd : f32 x - x = ((roundTiesEven (x / 2 ^ (e - 23)) : ℚ) - x / 2 ^ (e - 23)) * 2 ^ (e - 23) := by
      rw [hf]; field_simp
    have h24 : (2 : ℚ) ^ (e - 23) = 2 ^ e / 2 ^ 23 := by
      rw [zpow_sub₀ (by norm_num)]; norm_cast
    rw [hd, abs_mul, abs_of_pos hu]
    calc |(roundTiesEven (x / 2 ^ (e - 23)) : ℚ) - x / 2 ^ (e - 23)| * 2 ^ (e - 23)
        ≤ 1 / 2 * 2 ^ (e - 23) := by gcongr
      _ = 2 ^ e / 2 ^ 24 := by rw [h24]; ring
      _ ≤ |x| / 2 ^ 24 := by gcongr

theorem f32_nonneg {x : ℚ} (hx : 0 ≤ x) : 0 ≤ f32 x := by
  unfold f32
  split_ifs with h
  · exact le_refl 0
  · have := roundTiesEven_nonneg (q := x / 2 ^ (Int.log 2 |x| - 23)) (by positivity)
    have h2 : (0 : ℚ) ≤ (roundTiesEven (x / 2 ^ (Int.log 2 |x| - 23)) : ℚ) := by exact_mod_cast this
    positivity

theorem abs_f32_le (x : ℚ) : |f32 x| ≤ |x| * (1 + 1 / 2 ^ 24) := by
  have h := f32_sub_abs_le x
  have h2 : |f32 x| ≤ |f32 x - x| + |x| := by
    have := abs_add (f32 x - x) x
    simpa using this
  linarith

/-- Evaluation of `f32` at a positive argument of known binade. -/
theorem f32_eq_pos {x : ℚ} (e : Int) (hlo : (2 : ℚ) ^ e ≤ x) (hhi : x < (2 : ℚ) ^ (e + 1)) :
    f32 x = roundTiesEven (x / 2 ^ (e - 23)) * 2 ^ (e - 23) := by
  have hx : 0 < x := lt_of_lt_of_le (by positivity) hlo
  exact f32_eq e (by rwa [abs_of_pos hx]) (by rwa [abs_of_pos hx])

/-- The reading 341 converts to exactly `100.0f`: `341/1023` rounds to `0x3EAAAAAB`, three
times that rounds to `1.0f`. -/
theorem conv_341 : conv 341 = 100 := by
  have h1 : f32 341 = 341 := by
    rw [f32_eq_pos 8 (by norm_num) (by norm_num)]
    norm_num [roundTiesEven]
  have h2 : f32 (341 / 1023) = 11184811 / 33554432 := by
    rw [f32_eq_pos (-2) (by norm_num) (by norm_num)]
    norm_num [roundTiesEven]
  have h3 : f32 (11184811 / 33554432 * 3) = 1 := by
    rw [f32_eq_pos 0 (by norm_num) (by norm_num)]
    norm_num [roundTiesEven]
  have h4 : f32 (1 * 100) = 100 := by
    rw [f32_eq_pos 6 (by norm_num) (by norm_num)]
    norm_num [roundTiesEven]
  unfold conv
  push_cast
  rw [h1, h2, h3, h4]

/-! ## Bounds on the conversion -/

theorem conv_nonneg {v : Int} (hv : 0 ≤ v) : 0 ≤ conv v := by
  have h0 : (0 : ℚ) ≤ (v : ℚ) := by exact_mod_cast hv
  have h1 := f32_nonneg h0
  have h2 : 0 ≤ f32 (f32 (v : ℚ) / 1023) := f32_nonneg (by positivity)
  have h3 : 0 ≤ f32 (f32 (f32 (v : ℚ) / 1023) * 3) := f32_nonneg (by positivity)
  exact f32_nonneg (by positivity)

/-- Four roundings cost a relative error below `2^-21` on top of the exact `v * 300 / 1023`. -/
theorem abs_conv_le (v : Int) : |conv v| ≤ |(v : ℚ)| * (300 / 1023) * (1 + 1 / 2 ^ 21) := by
  have hd : (0 : ℚ) ≤ 1 + 1 / 2 ^ 24 := by norm_num
  have h1 := abs_f32_le (v : ℚ)
  have h2 := abs_f32_le (f32 (v : ℚ) / 1023)
  have h3 := abs_f32_le (f32 (f32 (v : ℚ) / 1023) * 3)
  have h4 := abs_f32_le (f32 (f32 (f32 (v : ℚ) / 1023) * 3) * 100)
  rw [abs_div, abs_of_pos (by norm_num : (0 : ℚ) < 1023)] at h2
  rw [abs_mul, abs_of_pos (by norm_num : (0 : ℚ) < 3)] at h3
  rw [abs_mul, abs_of_pos (by norm_num : (0 : ℚ) < 100)] at h4
  have e2 : |f32 (f32 (v : ℚ) / 1023)| ≤ |(v : ℚ)| * (1 + 1 / 2 ^ 24) / 1023 * (1 + 1 / 2 ^ 24) :=
    le_trans h2 (by gcongr)
  have e3 : |f32 (f32 (f32 (v : ℚ) / 1023) * 3)|
      ≤ |(v : ℚ)| * (1 + 1 / 2 ^ 24) / 1023 * (1 + 1 / 2 ^ 24) * 3 * (1 + 1 / 2 ^ 24) :=
    le_trans h3 (by gcongr)
  have e4 : |conv v|
      ≤ |(v : ℚ)| * (1 + 1 / 2 ^ 24) / 1023 * (1 + 1 / 2 ^ 24) * 3 * (1 + 1 / 2 ^ 24) * 100
          * (1 + 1 / 2 ^ 24) :=
    le_trans h4 (by gcongr)
  have hc : ((1 : ℚ) + 1 / 2 ^ 24) ^ 4 ≤ 1 + 1 / 2 ^ 21 := by norm_num
  calc |conv v|
      ≤ |(v : ℚ)| * (1 + 1 / 2 ^ 24) / 1023 * (1 + 1 / 2 ^ 24) * 3 * (1 + 1 / 2 ^ 24) * 100
          * (1 + 1 / 2 ^ 24) := e4
    _ = |(v : ℚ)| * (300 / 1023) * (1 + 1 / 2 ^ 24) ^ 4 := by ring
    _ ≤ |(v : ℚ)| * (300 / 1023) * (1 + 1 / 2 ^ 21) := by gcongr

/-- A reading in the sensor range converts to at most `300` plus a rounding slack. -/
theorem conv_range {v : Int} (h0 : 0 ≤ v) (h1 : v ≤ 1023) :
    0 ≤ conv v ∧ conv v ≤ 300 + 1 / 4 := by
  refine ⟨conv_nonneg h0, ?_⟩
  have h := abs_conv_le v
  have hv : |(v : ℚ)| ≤ 1023 := by
    rw [abs_of_nonneg (by exact_mod_cast h0)]; exact_mod_cast h1
  have : |(v : ℚ)| * (300 / 1023) * (1 + 1 / 2 ^ 21) ≤ 1023 * (300 / 1023) * (1 + 1 / 2 ^ 21) := by
    gcongr
  have h3 : conv v ≤ |conv v| := le_abs_self _
  norm_num at this
  linarith

/-- Any `int` reading converts to a magnitude far below `INT32_MAX`. -/
theorem abs_conv_int {v : Int} (hv : isInt v) : |conv v| ≤ 2 ^ 30 := by
  have h := abs_conv_le v
  have hv2 : |(v : ℚ)| ≤ 2 ^ 31 := by
    obtain ⟨ha, hb⟩ := hv
    unfold INT32_MIN at ha
    unfold INT32_MAX at hb
    rw [abs_le]
    constructor
    · have : ((-2147483648 : Int) : ℚ) ≤ (v : ℚ) := by exact_mod_cast ha
      norm_num at this ⊢; linarith
    · have : (v : ℚ) ≤ ((2147483647 : Int) : ℚ) := by exact_mod_cast hb
      norm_num at this ⊢; linarith
  have : |(v : ℚ)| * (300 / 1023) * (1 + 1 / 2 ^ 21) ≤ 2 ^ 31 * (300 / 1023) * (1 + 1 / 2 ^ 21) := by
    gcongr
  norm_num at this ⊢
  linarith

/-! ## Rounding to the nearest integer -/

theorem round_sub_abs (x : ℚ) : |(round x : ℚ) - x| ≤ 1 / 2 := by
  unfold round
  split_ifs with h
  · have h1 := Int.floor_le (x + 1 / 2)
    have h2 := Int.lt_floor_add_one (x + 1 / 2)
    rw [abs_le]; constructor <;> linarith
  · have h1 := Int.le_ceil (x - 1 / 2)
    have h2 := Int.ceil_lt_add_one (x - 1 / 2)
    rw [abs_le]; constructor <;> linarith

theorem round_intCast (n : Int) : round (n : ℚ) = n := by
  unfold round
  split_ifs with h
  · rw [Int.floor_eq_iff]; constructor <;> linarith
  · rw [Int.ceil_eq_iff]; constructor <;> linarith

theorem round_range {x : ℚ} (h0 : 0 ≤ x) (h1 : x ≤ 300 + 1 / 4) :
    0 ≤ round x ∧ round x ≤ 300 := by
  unfold round
  rw [if_pos h0]
  constructor
  · exact Int.floor_nonneg.mpr (by linarith)
  · have : ⌊x + 1 / 2⌋ < 301 := by
      rw [Int.floor_lt]; push_cast; linarith
    omega

theorem round_ne_sentinel {x : ℚ} (h : |x| ≤ 2 ^ 30) : round x ≠ INT32_MAX := by
  intro hx
  have h1 := round_sub_abs x
  rw [hx] at h1
  unfold INT32_MAX at h1
  rw [abs_le] at h h1
  obtain ⟨_, h2⟩ := h
  obtain ⟨_, h3⟩ := h1
  norm_num at h2 h3
  linarith

/-! ## The sliding window -/

theorem mean_replicate (n : Nat) (x : ℚ) (hn : n ≠ 0) : mean (List.replicate n x) = x := by
  unfold mean
  have : (n : ℚ) ≠ 0 := by exact_mod_cast hn
  simp [List.sum_replicate]
  field_simp

theorem mean_bounds {l : List ℚ} {a b : ℚ} (hl : l ≠ []) (h : ∀ x ∈ l, a ≤ x ∧ x ≤ b) :
    a ≤ mean l ∧ mean l ≤ b := by
  have hlen : (0 : ℚ) < (l.length : ℚ) := by
    exact_mod_cast List.length_pos.mpr hl
  have h1 : l.sum ≤ l.length • b := List.sum_le_card_nsmul l b (fun x hx => (h x hx).2)
  have h2 : l.length • a ≤ l.sum := List.card_nsmul_le_sum l a (fun x hx => (h x hx).1)
  rw [nsmul_eq_mul] at h1 h2
  unfold mean
  constructor
  · rw [le_div_iff₀ hlen]; linarith
  · rw [div_le_iff₀ hlen]; linarith

theorem lastN_length (n : Nat) (l : List ℚ) : (lastN n l).length = min n l.length := by
  unfold lastN
  rw [List.length_drop]
  omega

theorem lastN_subset (n : Nat) (l : List ℚ) : ∀ x ∈ lastN n l, x ∈ l := by
  intro x hx
  exact List.mem_of_mem_drop hx

theorem lastN_append_eq (n : Nat) (l m : List ℚ) (h : m.length = n) : lastN n (l ++ m) = m := by
  unfold lastN
  rw [List.length_append, h, Nat.add_sub_cancel]
  exact List.drop_left l m

/-- Truncating the older part of a history to its last `n` entries does not change the
last `n` entries of the extended history. -/
theorem lastN_lastN_append (n : Nat) (l m : List ℚ) :
    lastN n (lastN n l ++ m) = lastN n (l ++ m) := by
  unfold lastN
  have hk : l.length - n ≤ l.length := Nat.sub_le _ _
  rw [← List.drop_append_of_le_length hk, List.length_drop, List.drop_drop]
  congr 1
  rw [List.length_append]
  omega


/-! ## The sampler -/

theorem fillLoop_trace (x : ℚ) (n : Nat) (s : State) : (fillLoop x n s).trace = s.trace := by
  induction n generalizing s with
  | zero => rfl
  | succ n ih => rw [fillLoop, ih]; rfl

theorem fillLoop_flags (x : ℚ) (n : Nat) (s : State) :
    (fillLoop x n s).readyForWeatherUpdate = s.readyForWeatherUpdate ∧
    (fillLoop x n s).lastUpdate = s.lastUpdate ∧
    (fillLoop x n s).lastTemperatureUpdate = s.lastTemperatureUpdate ∧
    (fillLoop x n s).temperatureMA.dataPointsCount = s.temperatureMA.dataPointsCount := by
  induction n generalizing s with
  | zero => exact ⟨rfl, rfl, rfl, rfl⟩
  | succ n ih => rw [fillLoop]; exact ih (processStep x s)

theorem fillLoop_values (x : ℚ) (n : Nat) (s : State) :
    (fillLoop x (n + 1) s).temperatureMA.values =
      lastN s.temperatureMA.dataPointsCount (s.temperatureMA.values ++ List.replicate (n + 1) x) := by
  induction n generalizing s with
  | zero => rfl
  | succ n ih =>
    rw [fillLoop, ih]
    show lastN s.temperatureMA.dataPointsCount
        (lastN s.temperatureMA.dataPointsCount (s.temperatureMA.values ++ [x]) ++
          List.replicate (n + 1) x) = _
    rw [lastN_lastN_append, List.append_assoc]
    rfl

theorem fillLoop_temperature (x : ℚ) (n : Nat) (s : State) :
    (fillLoop x (n + 1) s).temperature = round (mean (fillLoop x (n + 1) s).temperatureMA.values) := by
  induction n generalizing s with
  | zero => rfl
  | succ n ih => rw [fillLoop]; exact ih (processStep x s)

/-- The library calls of one `updateTemperature`: one sensor read, the serial output, one
`setTemperature` with the stored value, the final serial line. -/
theorem updateTemperature_trace (v : Int) (now : Nat) (s : State) :
    (updateTemperature v now s).trace =
      s.trace ++ [.analogRead, .serialPrint "Temperature: ", .serialPrintFloat (conv v),
        .serialPrint " / ", .serviceSetTemperature (updateTemperature v now s).temperature,
        .serialPrintlnInt (updateTemperature v now s).temperature] := by
  unfold updateTemperature
  by_cases h : s.temperature = INT32_MAX
  · simp [State.emit, h, fillLoop_trace]
  · simp [State.emit, h, processStep]

theorem updateTemperature_flags (v : Int) (now : Nat) (s : State) :
    (updateTemperature v now s).readyForWeatherUpdate = s.readyForWeatherUpdate ∧
    (updateTemperature v now s).lastUpdate = s.lastUpdate ∧
    (updateTemperature v now s).lastTemperatureUpdate = toLong now ∧
    (updateTemperature v now s).temperatureMA.dataPointsCount = s.temperatureMA.dataPointsCount := by
  unfold updateTemperature
  by_cases h : s.temperature = INT32_MAX
  · have hf := fillLoop_flags (conv v) TEMPERATURE_MA_POINT_COUNT
      (s.emit [.analogRead, .serialPrint "Temperature: ", .serialPrintFloat (conv v),
        .serialPrint " / "])
    simp only [State.emit] at hf ⊢
    simp only [h, if_true]
    exact ⟨hf.1, hf.2.1, trivial, hf.2.2.2⟩
  · simp [State.emit, h, processStep, MovingAverageFilter.process]

/-- The priming call: the window is overwritten with the converted reading. -/
theorem updateTemperature_first (v : Int) (now : Nat) (s : State)
    (hs : s.temperature = INT32_MAX)
    (hc : s.temperatureMA.dataPointsCount = TEMPERATURE_MA_POINT_COUNT) :
    (updateTemperature v now s).temperatureMA.values =
        List.replicate TEMPERATURE_MA_POINT_COUNT (conv v) ∧
    (updateTemperature v now s).temperature = round (conv v) := by
  have hv := fillLoop_values (conv v) 17
      (s.emit [.analogRead, .serialPrint "Temperature: ", .serialPrintFloat (conv v),
        .serialPrint " / "])
  have ht := fillLoop_temperature (conv v) 17
      (s.emit [.analogRead, .serialPrint "Temperature: ", .serialPrintFloat (conv v),
        .serialPrint " / "])
  have h18 : TEMPERATURE_MA_POINT_COUNT = 17 + 1 := rfl
  rw [← h18] at hv ht
  simp only [State.emit] at hv ht
  rw [hc, lastN_append_eq _ _ _ (List.length_replicate _ _)] at hv
  rw [hv, mean_replicate _ _ (by decide)] at ht
  unfold updateTemperature
  simp only [State.emit, hs, if_true]
  exact ⟨hv, ht⟩

/-- Every later call: one push, and the mean of the new window is published. -/
theorem updateTemperature_next (v : Int) (now : Nat) (s : State)
    (hs : s.temperature ≠ INT32_MAX) :
    (updateTemperature v now s).temperatureMA.values =
        lastN s.temperatureMA.dataPointsCount (s.temperatureMA.values ++ [conv v]) ∧
    (updateTemperature v now s).temperature =
        round (mean (lastN s.temperatureMA.dataPointsCount (s.temperatureMA.values ++ [conv v]))) := by
  unfold updateTemperature
  simp [State.emit, hs, processStep, MovingAverageFilter.process]

theorem lastN_ne_nil {H : List ℚ} (h : TEMPERATURE_MA_POINT_COUNT ≤ H.length) :
    lastN TEMPERATURE_MA_POINT_COUNT H ≠ [] := by
  intro hnil
  have := lastN_length TEMPERATURE_MA_POINT_COUNT H
  rw [hnil] at this
  have h18 : TEMPERATURE_MA_POINT_COUNT = 18 := rfl
  simp at this
  omega

theorem Primed.bounds {H : List ℚ} {s : State} {a b : ℚ} (hp : Primed H s)
    (hb : ∀ x ∈ H, a ≤ x ∧ x ≤ b) :
    a ≤ mean (lastN TEMPERATURE_MA_POINT_COUNT H) ∧ mean (lastN TEMPERATURE_MA_POINT_COUNT H) ≤ b :=
  mean_bounds (lastN_ne_nil hp.2.1) (fun x hx => hb x (lastN_subset _ _ x hx))

theorem Primed.ne_sentinel {H : List ℚ} {s : State} (hp : Primed H s)
    (hb : ∀ x ∈ H, |x| ≤ 2 ^ 30) : s.temperature ≠ INT32_MAX := by
  rw [hp.2.2.2]
  apply round_ne_sentinel
  have := hp.bounds (a := -(2 ^ 30)) (b := 2 ^ 30) (fun x hx => abs_le.mp (hb x hx))
  exact abs_le.mpr this

theorem Primed.first (v : Int) (now : Nat) (s : State)
    (hs : s.temperature = INT32_MAX)
    (hc : s.temperatureMA.dataPointsCount = TEMPERATURE_MA_POINT_COUNT) :
    Primed (List.replicate 17 (conv v) ++ [conv v]) (updateTemperature v now s) := by
  obtain ⟨hv, ht⟩ := updateTemperature_first v now s hs hc
  have hH : List.replicate 17 (conv v) ++ [conv v] =
      List.replicate TEMPERATURE_MA_POINT_COUNT (conv v) := by
    exact (List.replicate_succ' 17 (conv v)).symm
  have hl : lastN TEMPERATURE_MA_POINT_COUNT (List.replicate TEMPERATURE_MA_POINT_COUNT (conv v)) =
      List.replicate TEMPERATURE_MA_POINT_COUNT (conv v) := by
    have := lastN_append_eq TEMPERATURE_MA_POINT_COUNT []
      (List.replicate TEMPERATURE_MA_POINT_COUNT (conv v)) (List.length_replicate _ _)
    simpa using this
  refine ⟨?_, ?_, ?_, ?_⟩
  · rw [(updateTemperature_flags v now s).2.2.2, hc]
  · rw [hH, List.length_replicate]
  · rw [hH, hl, hv]
  · rw [hH, hl, ht, mean_replicate _ _ (by decide)]

theorem Primed.step {H : List ℚ} {s : State} (hp : Primed H s) (v : Int) (now : Nat)
    (hs : s.temperature ≠ INT32_MAX) :
    Primed (H ++ [conv v]) (updateTemperature v now s) := by
  obtain ⟨hv, ht⟩ := updateTemperature_next v now s hs
  obtain ⟨hc, hlen, hw, _⟩ := hp
  rw [hc, hw, lastN_lastN_append] at hv ht
  refine ⟨?_, ?_, hv, ht⟩
  · rw [(updateTemperature_flags v now s).2.2.2, hc]
  · rw [List.length_append]; omega

theorem Primed.run {H : List ℚ} {s : State} (hp : Primed H s) (rs : List (Int × Nat))
    (hb : ∀ x ∈ H ++ convAll rs, |x| ≤ 2 ^ 30) :
    Primed (H ++ convAll rs) (runSampler rs s) := by
  induction rs generalizing H s with
  | nil => simpa [convAll, runSampler] using hp
  | cons p rest ih =>
    obtain ⟨v, now⟩ := p
    have hH : H ++ convAll ((v, now) :: rest) = (H ++ [conv v]) ++ convAll rest := by
      simp [convAll]
    rw [hH] at hb ⊢
    have hne : s.temperature ≠ INT32_MAX :=
      hp.ne_sentinel (fun x hx => hb x (by simp at hx ⊢; tauto))
    exact ih (hp.step v now hne) hb

/-! ## Traces -/

theorem published_append (a b : List Event) : published (a ++ b) = published a ++ published b := by
  induction a with
  | nil => rfl
  | cons e rest ih => cases e <;> simp [published, ih]

theorem refreshSteps_append (a b : List Event) :
    refreshSteps (a ++ b) = refreshSteps a ++ refreshSteps b := by
  induction a with
  | nil => rfl
  | cons e rest ih => cases e <;> simp [refreshSteps, ih]

theorem samplerCalls_append (a b : List Event) :
    samplerCalls (a ++ b) = samplerCalls a + samplerCalls b := by
  unfold samplerCalls; exact List.count_append _ _ _

theorem fullRefreshes_append (a b : List Event) :
    fullRefreshes (a ++ b) = fullRefreshes a + fullRefreshes b := by
  unfold fullRefreshes; exact List.count_append _ _ _

theorem updateTemperature_published (v : Int) (now : Nat) (s : State) :
    published (updateTemperature v now s).trace =
      published s.trace ++ [(updateTemperature v now s).temperature] := by
  rw [updateTemperature_trace, published_append]
  rfl

theorem updateTemperature_samplerCalls (v : Int) (now : Nat) (s : State) :
    samplerCalls (updateTemperature v now s).trace = samplerCalls s.trace + 1 := by
  rw [updateTemperature_trace, samplerCalls_append]
  simp [samplerCalls]

theorem updateTemperature_fullRefreshes (v : Int) (now : Nat) (s : State) :
    fullRefreshes (updateTemperature v now s).trace = fullRefreshes s.trace := by
  rw [updateTemperature_trace, fullRefreshes_append]
  simp [fullRefreshes]

theorem updateTemperature_refreshSteps (v : Int) (now : Nat) (s : State) :
    refreshSteps (updateTemperature v now s).trace = refreshSteps s.trace ++ [.temperature] := by
  rw [updateTemperature_trace, refreshSteps_append]
  rfl

theorem updateData_readyForWeatherUpdate (ft : String) (v : Int) (now : Nat) (s : State) :
    (updateData ft v now s).readyForWeatherUpdate = false := rfl

theorem updateDataHead_trace (s : State) :
    (updateDataHead s).trace = s.trace ++
        [.display .clear, .display (.setTextAlignment .TEXT_ALIGN_CENTER),
         .display (.setFont .ArialMT_Plain_10), .display (.drawString 64 10 "Updating time..."),
         .display (.drawProgressBar 2 28 124 10 10), .display .flipScreenVertically,
         .display .display,
         .timeClientUpdateTime,
         .display .clear, .display (.setTextAlignment .TEXT_ALIGN_CENTER),
         .display (.setFont .ArialMT_Plain_10),
         .display (.drawString 64 10 "Updating conditions..."),
         .display (.drawProgressBar 2 28 124 10 30), .display .flipScreenVertically,
         .display .display,
         .updateConditions WUNDERGRROUND_API_KEY WUNDERGRROUND_LANGUAGE WUNDERGROUND_COUNTRY
           WUNDERGROUND_CITY,
         .display .clear, .display (.setTextAlignment .TEXT_ALIGN_CENTER),
         .display (.setFont .ArialMT_Plain_10),
         .display (.drawString 64 10 "Updating forecasts..."),
         .display (.drawProgressBar 2 28 124 10 50), .display .flipScreenVertically,
         .display .display,
         .updateForecast WUNDERGRROUND_API_KEY WUNDERGRROUND_LANGUAGE WUNDERGROUND_COUNTRY
           WUNDERGROUND_CITY,
         .display .clear, .display (.setTextAlignment .TEXT_ALIGN_CENTER),
         .display (.setFont .ArialMT_Plain_10),
         .display (.drawString 64 10 "Updating temperature..."),
         .display (.drawProgressBar 2 28 124 10 80), .display .flipScreenVertically,
         .display .display] := by
  simp [updateDataHead, drawProgress, State.emit]

theorem updateData_trace (ft : String) (v : Int) (now : Nat) (s : State) :
    (updateData ft v now s).trace = (updateTemperature v now (updateDataHead s)).trace ++
        [.display .clear, .display (.setTextAlignment .TEXT_ALIGN_CENTER),
         .display (.setFont .ArialMT_Plain_10), .display (.drawString 64 10 "Done..."),
         .display (.drawProgressBar 2 28 124 10 100), .display .flipScreenVertically,
         .display .display, .delay 100] := by
  simp [updateData, drawProgress, State.emit]

theorem updateData_lastTemperatureUpdate (ft : String) (v : Int) (now : Nat) (s : State) :
    (updateData ft v now s).lastTemperatureUpdate = toLong now := by
  simp only [updateData, drawProgress, State.emit]
  exact (updateTemperature_flags v now _).2.2.1

theorem updateData_refreshSteps (ft : String) (v : Int) (now : Nat) (s : State) :
    refreshSteps (updateData ft v now s).trace =
      refreshSteps s.trace ++ [.time, .conditions, .forecast, .temperature] := by
  rw [updateData_trace, refreshSteps_append, updateTemperature_refreshSteps, updateDataHead_trace,
    refreshSteps_append]
  simp [refreshSteps]

theorem updateData_fullRefreshes (ft : String) (v : Int) (now : Nat) (s : State) :
    fullRefreshes (updateData ft v now s).trace = fullRefreshes s.trace + 1 := by
  rw [updateData_trace, fullRefreshes_append, updateTemperature_fullRefreshes, updateDataHead_trace,
    fullRefreshes_append]
  simp [fullRefreshes]

theorem updateData_samplerCalls (ft : String) (v : Int) (now : Nat) (s : State) :
    samplerCalls (updateData ft v now s).trace = samplerCalls s.trace + 1 := by
  rw [updateData_trace, samplerCalls_append, updateTemperature_samplerCalls, updateDataHead_trace,
    samplerCalls_append]
  simp [samplerCalls]

theorem loopUi_fields (inp : LoopInput) (s : State) :
    (loopUi inp s).readyForWeatherUpdate = s.readyForWeatherUpdate ∧
    (loopUi inp s).lastTemperatureUpdate = s.lastTemperatureUpdate ∧
    samplerCalls (loopUi inp s).trace = samplerCalls s.trace ∧
    fullRefreshes (loopUi inp s).trace = fullRefreshes s.trace := by
  unfold loopUi
  by_cases h : inp.remainingTimeBudget > 0
  · simp [h, State.emit, samplerCalls, fullRefreshes, List.count_append]
  · simp [h, State.emit, samplerCalls, fullRefreshes, List.count_append]

theorem loopSample_fields (inp : LoopInput) (s : State) :
    (loopSample inp s).readyForWeatherUpdate = s.readyForWeatherUpdate ∧
    fullRefreshes (loopSample inp s).trace = fullRefreshes s.trace ∧
    samplerCalls (loopSample inp s).trace =
      samplerCalls s.trace + (if temperatureDue inp.checkNow s then 1 else 0) := by
  unfold loopSample
  by_cases h : temperatureDue inp.checkNow s = true
  · simp [h, updateTemperature_flags, updateTemperature_fullRefreshes,
      updateTemperature_samplerCalls]
  · simp [h]

theorem loopRefresh_fields (inp : LoopInput) (s : State) :
    fullRefreshes (loopRefresh inp s).trace = fullRefreshes s.trace +
      (if s.readyForWeatherUpdate = true ∧ inp.frameState = FrameState.FIXED then 1 else 0) ∧
    samplerCalls (loopRefresh inp s).trace = samplerCalls s.trace +
      (if s.readyForWeatherUpdate = true ∧ inp.frameState = FrameState.FIXED then 1 else 0) := by
  unfold loopRefresh
  by_cases h : s.readyForWeatherUpdate = true ∧ inp.frameState = FrameState.FIXED
  · simp [h, updateData_fullRefreshes, updateData_samplerCalls]
  · have h2 : (s.readyForWeatherUpdate && inp.frameState == FrameState.FIXED) = false := by
      simpa using h
    simp [h, h2]

theorem loop_fullRefreshes (inp : LoopInput) (s : State) :
    fullRefreshes (loop inp s).trace = fullRefreshes s.trace +
      (if s.readyForWeatherUpdate = true ∧ inp.frameState = FrameState.FIXED then 1 else 0) := by
  unfold loop
  simp only [State.emit]
  rw [fullRefreshes_append, (loopSample_fields _ _).2.1, (loopUi_fields _ _).2.2.2,
    (loopRefresh_fields _ _).1]
  simp [fullRefreshes]

theorem loop_samplerCalls (inp : LoopInput) (s : State) :
    samplerCalls (loop inp s).trace = samplerCalls (loopRefresh inp s).trace +
      (if temperatureDue inp.checkNow (loopUi inp (loopRefresh inp s)) then 1 else 0) := by
  unfold loop
  simp only [State.emit]
  rw [samplerCalls_append, (loopSample_fields _ _).2.2, (loopUi_fields _ _).2.2.1]
  simp [samplerCalls]

theorem loop_ready_of_not_fixed (inp : LoopInput) (s : State)
    (h : inp.frameState ≠ FrameState.FIXED) :
    (loop inp s).readyForWeatherUpdate = s.readyForWeatherUpdate := by
  unfold loop
  simp only [State.emit]
  rw [(loopSample_fields _ _).1, (loopUi_fields _ _).1]
  unfold loopRefresh
  simp [h]

theorem step_midTransition (st : Step) (s : State) (hm : st.midTransition = true)
    (hr : s.readyForWeatherUpdate = true) :
    (st.run s).readyForWeatherUpdate = true ∧
    fullRefreshes (st.run s).trace = fullRefreshes s.trace := by
  cases st with
  | tick =>
    simp [Step.run, setReadyForWeatherUpdate, State.emit, fullRefreshes, List.count_append]
  | iter inp =>
    have hf : inp.frameState ≠ FrameState.FIXED := by
      simpa [Step.midTransition] using hm
    refine ⟨by rw [Step.run, loop_ready_of_not_fixed inp s hf, hr], ?_⟩
    rw [Step.run, loop_fullRefreshes]
    simp [hf]

theorem runSteps_midTransition (pre : List Step) (s : State)
    (hm : ∀ st ∈ pre, st.midTransition = true) (hr : s.readyForWeatherUpdate = true) :
    (runSteps pre s).readyForWeatherUpdate = true ∧
    fullRefreshes (runSteps pre s).trace = fullRefreshes s.trace := by
  induction pre generalizing s with
  | nil => exact ⟨hr, rfl⟩
  | cons st rest ih =>
    obtain ⟨h1, h2⟩ := step_midTransition st s (hm st (List.mem_cons_self _ _)) hr
    obtain ⟨h3, h4⟩ := ih (st.run s) (fun t ht => hm t (List.mem_cons_of_mem _ ht)) h1
    exact ⟨h3, by rw [runSteps, h4, h2]⟩

theorem lastN_append_of_le (n : Nat) (l m : List ℚ) (h : n ≤ m.length) :
    lastN n (l ++ m) = lastN n m := by
  unfold lastN
  rw [List.length_append, List.drop_append_eq_append_drop]
  have h1 : l.length + m.length - n - l.length = m.length - n := by omega
  have h2 : List.drop (l.length + m.length - n) l = [] := by
    apply List.drop_eq_nil_of_le; omega
  rw [h1, h2, List.nil_append]

theorem runSampler_published_getLast (rs : List (Int × Nat)) (s : State) (hne : rs ≠ []) :
    (published (runSampler rs s).trace).getLast? = some (runSampler rs s).temperature := by
  induction rs generalizing s with
  | nil => exact absurd rfl hne
  | cons p rest ih =>
    obtain ⟨v, now⟩ := p
    by_cases hr : rest = []
    · subst hr
      simp [runSampler, updateTemperature_published]
    · exact ih (updateTemperature v now s) hr

theorem convAll_length (rs : List (Int × Nat)) : (convAll rs).length = rs.length := by
  simp [convAll]

theorem convAll_bounded (rs : List (Int × Nat)) (h : ∀ p ∈ rs, isInt p.1) :
    ∀ x ∈ convAll rs, |x| ≤ 2 ^ 30 := by
  intro x hx
  simp only [convAll, List.mem_map] at hx
  obtain ⟨p, hp, rfl⟩ := hx
  exact abs_conv_int (h p hp)

theorem convAll_range (rs : List (Int × Nat)) (h : ∀ p ∈ rs, 0 ≤ p.1 ∧ p.1 ≤ 1023) :
    ∀ x ∈ convAll rs, 0 ≤ x ∧ x ≤ 300 + 1 / 4 := by
  intro x hx
  simp only [convAll, List.mem_map] at hx
  obtain ⟨p, hp, rfl⟩ := hx
  exact conv_range (h p hp).1 (h p hp).2

/-- From the startup state, a non-empty run of the sampler is primed on the history made of
17 copies of the first conversion followed by all conversions. -/
theorem Primed.of_startup (s : State) (v : Int) (now : Nat) (rest : List (Int × Nat))
    (hs : s.temperature = INT32_MAX)
    (hc : s.temperatureMA.dataPointsCount = TEMPERATURE_MA_POINT_COUNT)
    (hint : ∀ p ∈ (v, now) :: rest, isInt p.1) :
    Primed (List.replicate 17 (conv v) ++ convAll ((v, now) :: rest))
      (runSampler ((v, now) :: rest) s) := by
  have hH : List.replicate 17 (conv v) ++ convAll ((v, now) :: rest) =
      (List.replicate 17 (conv v) ++ [conv v]) ++ convAll rest := by
    simp [convAll]
  rw [hH]
  apply (Primed.first v now s hs hc).run rest
  intro x hx
  have hb := convAll_bounded _ hint
  rw [← hH] at hx
  rcases List.mem_append.mp hx with h | h
  · rw [List.eq_of_mem_replicate h]
    exact abs_conv_int (hint (v, now) (List.mem_cons_self _ _))
  · exact hb x h

/-! ## The claims -/

/-- C1: starting from the startup state (temperature `INT32_MAX`, an 18-slot window with
arbitrary initial contents), after the calls of `updateTemperature` for a non-empty sequence
of `int` readings `r1..rn` the window holds, and the stored and published temperature is
the rounded arithmetic mean of, the last 18 entries of 17 copies of `conv r1` followed by
`conv r1, ..., conv rn`; for `n ≥ 18` these are exactly the last 18 samples. -/
theorem sampler_publishes_mean_of_last_18 (s : State) (v : Int) (now : Nat)
    (rest : List (Int × Nat))
    (hs : s.temperature = INT32_MAX)
    (hc : s.temperatureMA.dataPointsCount = TEMPERATURE_MA_POINT_COUNT)
    (hint : ∀ p ∈ (v, now) :: rest, isInt p.1) :
    (runSampler ((v, now) :: rest) s).temperatureMA.values =
        lastN 18 (List.replicate 17 (conv v) ++ convAll ((v, now) :: rest)) ∧
    (runSampler ((v, now) :: rest) s).temperature =
        round (mean (lastN 18 (List.replicate 17 (conv v) ++ convAll ((v, now) :: rest)))) ∧
    (published (runSampler ((v, now) :: rest) s).trace).getLast? =
        some (round (mean (lastN 18
          (List.replicate 17 (conv v) ++ convAll ((v, now) :: rest))))) ∧
    (18 ≤ ((v, now) :: rest).length →
      (runSampler ((v, now) :: rest) s).temperature =
        round (mean (lastN 18 (convAll ((v, now) :: rest))))) := by
  obtain ⟨_, _, hw, ht⟩ := Primed.of_startup s v now rest hs hc hint
  have h18 : TEMPERATURE_MA_POINT_COUNT = 18 := rfl
  rw [h18] at hw ht
  refine ⟨hw, ht, ?_, ?_⟩
  · rw [runSampler_published_getLast _ _ (List.cons_ne_nil _ _), ht]
  · intro hn
    rw [ht, lastN_append_of_le]
    rw [convAll_length]; exact hn

/-- C2: the first call of `updateTemperature` after startup overwrites the whole window,
whatever it held, with 18 copies of the converted reading, and stores and publishes the
converted reading rounded to the nearest integer. -/
theorem first_call_fills_window (s : State) (v : Int) (now : Nat)
    (hs : s.temperature = INT32_MAX)
    (hc : s.temperatureMA.dataPointsCount = TEMPERATURE_MA_POINT_COUNT) :
    (updateTemperature v now s).temperatureMA.values = List.replicate 18 (conv v) ∧
    (updateTemperature v now s).temperature = round (conv v) ∧
    published (updateTemperature v now s).trace = published s.trace ++ [round (conv v)] := by
  obtain ⟨hv, ht⟩ := updateTemperature_first v now s hs hc
  refine ⟨hv, ht, ?_⟩
  rw [updateTemperature_published, ht]

/-- C8: every call of `updateTemperature`, from any state (the priming call included), calls
`service.setTemperature` exactly once, with the value it leaves in the global `temperature`. -/
theorem setTemperature_once_with_stored_value (v : Int) (now : Nat) (s : State) :
    published (updateTemperature v now s).trace =
      published s.trace ++ [(updateTemperature v now s).temperature] :=
  updateTemperature_published v now s

/-- With the reading constantly 341 every call leaves a window of 18 copies of `100` and the
temperature `100`, whether it primes the window or pushes into a window already in that
state. -/
theorem steady_341 (s : State) (now : Nat)
    (hc : s.temperatureMA.dataPointsCount = TEMPERATURE_MA_POINT_COUNT)
    (hw : s.temperature = INT32_MAX ∨
      (s.temperature = 100 ∧ s.temperatureMA.values = List.replicate 18 100)) :
    (updateTemperature 341 now s).temperatureMA.dataPointsCount = TEMPERATURE_MA_POINT_COUNT ∧
    (updateTemperature 341 now s).temperature = 100 ∧
    (updateTemperature 341 now s).temperatureMA.values = List.replicate 18 100 := by
  have hr : round (100 : ℚ) = 100 := round_intCast 100
  refine ⟨by rw [(updateTemperature_flags 341 now s).2.2.2, hc], ?_⟩
  rcases hw with hs | ⟨ht, hv⟩
  · obtain ⟨h1, h2⟩ := updateTemperature_first 341 now s hs hc
    rw [conv_341] at h1 h2
    exact ⟨by rw [h2, hr], h1⟩
  · have hne : s.temperature ≠ INT32_MAX := by rw [ht]; decide
    obtain ⟨h1, h2⟩ := updateTemperature_next 341 now s hne
    have hl : lastN s.temperatureMA.dataPointsCount (s.temperatureMA.values ++ [conv 341]) =
        List.replicate 18 100 := by
      rw [hc, hv, conv_341]
      have : List.replicate 18 (100 : ℚ) ++ [100] = [100] ++ List.replicate 18 100 := by
        simp [List.replicate]
      rw [this]
      exact lastN_append_eq _ _ _ (by simp [TEMPERATURE_MA_POINT_COUNT])
    rw [hl] at h1 h2
    rw [mean_replicate _ _ (by decide), hr] at h2
    exact ⟨h2, h1⟩

theorem run_341 (nows : List Nat) (s : State)
    (hc : s.temperatureMA.dataPointsCount = TEMPERATURE_MA_POINT_COUNT)
    (hw : s.temperature = INT32_MAX ∨
      (s.temperature = 100 ∧ s.temperatureMA.values = List.replicate 18 100)) :
    published (runSampler (nows.map (fun t => ((341 : Int), t))) s).trace =
        published s.trace ++ List.replicate nows.length 100 ∧
    (nows ≠ [] → (runSampler (nows.map (fun t => ((341 : Int), t))) s).temperature = 100) := by
  induction nows generalizing s with
  | nil => simp [runSampler]
  | cons t rest ih =>
    obtain ⟨h1, h2, h3⟩ := steady_341 s t hc hw
    obtain ⟨i1, i2⟩ := ih (updateTemperature 341 t s) h1 (Or.inr ⟨h2, h3⟩)
    simp only [List.map_cons, runSampler, List.length_cons]
    constructor
    · rw [i1, updateTemperature_published, h2, List.append_assoc]
      rfl
    · intro _
      by_cases hr : rest = []
      · subst hr; simpa [runSampler] using h2
      · exact i2 hr

/-- C7: with the raw input constantly 341, after any positive number of calls of
`updateTemperature` from the startup state the stored temperature is 100, and every one of
the calls published exactly 100. -/
theorem constant_341_publishes_100 (s : State) (nows : List Nat)
    (hs : s.temperature = INT32_MAX)
    (hc : s.temperatureMA.dataPointsCount = TEMPERATURE_MA_POINT_COUNT)
    (hne : nows ≠ []) :
    (runSampler (nows.map (fun t => ((341 : Int), t))) s).temperature = 100 ∧
    published (runSampler (nows.map (fun t => ((341 : Int), t))) s).trace =
      published s.trace ++ List.replicate nows.length 100 := by
  obtain ⟨h1, h2⟩ := run_341 nows s hc (Or.inl hs)
  exact ⟨h2 hne, h1⟩

/-- C10: from the startup state, after the calls of `updateTemperature` for any non-empty
sequence of readings within 0..1023 the stored temperature lies between 0 and 300, so it is
not the `INT32_MAX` sentinel, the next call takes the single-push branch, and both the
indoor frame and the header overlay draw the number rather than the `--` placeholder. -/
theorem temperature_stays_in_range (s : State) (v : Int) (now : Nat) (rest : List (Int × Nat))
    (hs : s.temperature = INT32_MAX)
    (hc : s.temperatureMA.dataPointsCount = TEMPERATURE_MA_POINT_COUNT)
    (hr : ∀ p ∈ (v, now) :: rest, 0 ≤ p.1 ∧ p.1 ≤ 1023) :
    0 ≤ (runSampler ((v, now) :: rest) s).temperature ∧
    (runSampler ((v, now) :: rest) s).temperature ≤ 300 ∧
    (runSampler ((v, now) :: rest) s).temperature ≠ INT32_MAX ∧
    (∀ (v2 : Int) (now2 : Nat),
      (updateTemperature v2 now2 (runSampler ((v, now) :: rest) s)).temperatureMA.values =
        lastN 18 ((runSampler ((v, now) :: rest) s).temperatureMA.values ++ [conv v2])) ∧
    (∀ x y : Int, drawIndoor x y (runSampler ((v, now) :: rest) s) =
      [ .setTextAlignment .TEXT_ALIGN_CENTER, .setFont .ArialMT_Plain_10,
        .drawString (64 + x) (5 + y) "Indoor", .setFont .ArialMT_Plain_24,
        .drawString (64 + x) (15 + y)
          (toString (runSampler ((v, now) :: rest) s).temperature ++ " °C") ]) ∧
    drawHeaderTemperature (runSampler ((v, now) :: rest) s) =
      .drawString 128 54 (toString (runSampler ((v, now) :: rest) s).temperature ++ " °C") := by
  have hint : ∀ p ∈ (v, now) :: rest, isInt p.1 := by
    intro p hp
    have := hr p hp
    unfold isInt INT32_MIN INT32_MAX
    omega
  have hp := Primed.of_startup s v now rest hs hc hint
  have hb : ∀ x ∈ List.replicate 17 (conv v) ++ convAll ((v, now) :: rest),
      0 ≤ x ∧ x ≤ 300 + 1 / 4 := by
    intro x hx
    rcases List.mem_append.mp hx with h | h
    · rw [List.eq_of_mem_replicate h]
      exact conv_range (hr _ (List.mem_cons_self _ _)).1 (hr _ (List.mem_cons_self _ _)).2
    · exact convAll_range _ hr x h
  obtain ⟨m0, m1⟩ := hp.bounds hb
  obtain ⟨r0, r1⟩ := round_range m0 m1
  rw [← hp.2.2.2] at r0 r1
  have hne : (runSampler ((v, now) :: rest) s).temperature ≠ INT32_MAX := by
    unfold INT32_MAX; omega
  refine ⟨r0, r1, hne, ?_, ?_, ?_⟩
  · intro v2 now2
    rw [(updateTemperature_next v2 now2 _ hne).1, hp.1]
    rfl
  · intro x y
    simp [drawIndoor, hne]
  · simp [drawHeaderTemperature, hne]

theorem temperatureDue_loopUi (now : Nat) (inp : LoopInput) (s : State) :
    temperatureDue now (loopUi inp s) = temperatureDue now s := by
  unfold temperatureDue
  rw [(loopUi_fields inp s).2.1]

theorem loop_ready_of_refresh (inp : LoopInput) (s : State)
    (hr : s.readyForWeatherUpdate = true) (hf : inp.frameState = FrameState.FIXED) :
    (loop inp s).readyForWeatherUpdate = false := by
  unfold loop
  simp only [State.emit]
  rw [(loopSample_fields _ _).1, (loopUi_fields _ _).1]
  unfold loopRefresh
  simp [hr, hf, updateData_readyForWeatherUpdate]

/-- C3 (amended): when a previous sample exists at the sampling condition of `loop`
(`lastTemperatureUpdate != 0` after the refresh part of the iteration), the sampling branch
calls `updateTemperature` exactly when more than 10000 ms have elapsed, in `unsigned long`
arithmetic; at exactly 10000 ms it does not. -/
theorem sample_gate_is_strict (inp : LoopInput) (s : State)
    (h : (loopRefresh inp s).lastTemperatureUpdate ≠ 0) :
    samplerCalls (loop inp s).trace = samplerCalls (loopRefresh inp s).trace +
      (if 10000 < elapsed inp.checkNow (loopRefresh inp s).lastTemperatureUpdate then 1 else 0) := by
  rw [loop_samplerCalls, temperatureDue_loopUi]
  unfold temperatureDue
  simp [h]

/-- C3 (as stated) fails: in the state left by a first sample taken at `millis() = 1`, an iteration
whose sampling condition reads `millis() = 10001` sees exactly 10000 ms elapsed and makes no
call to `updateTemperature`: it only runs the UI step and the service step. -/
theorem exactly_10000ms_is_not_due :
    sampledState.lastTemperatureUpdate ≠ 0 ∧
    elapsed 10001 sampledState.lastTemperatureUpdate = 10000 ∧
    (loop settledInput sampledState).trace =
      sampledState.trace ++ [.uiUpdate, .serviceLoop] := by
  have hl : sampledState.lastTemperatureUpdate = 1 := by
    unfold sampledState
    rw [(updateTemperature_flags 341 1 initialState).2.2.1]; decide
  have hr : sampledState.readyForWeatherUpdate = false := by
    unfold sampledState
    rw [(updateTemperature_flags 341 1 initialState).1]; rfl
  have he : elapsed 10001 1 = 10000 := by decide
  refine ⟨by rw [hl]; decide, by rw [hl, he], ?_⟩
  simp [loop, loopSample, loopUi, loopRefresh, temperatureDue, State.emit, hl, hr, he,
    settledInput]

/-- C4: in one iteration of `loop`, from any state, `updateData` runs (once) exactly when
`readyForWeatherUpdate` is set and the frame state is `FIXED`, and not otherwise. -/
theorem full_refresh_iff_due_and_fixed (inp : LoopInput) (s : State) :
    fullRefreshes (loop inp s).trace = fullRefreshes s.trace +
      (if s.readyForWeatherUpdate = true ∧ inp.frameState = FrameState.FIXED then 1 else 0) :=
  loop_fullRefreshes inp s

/-- C5: an iteration that starts with the due flag set and a frame state other than `FIXED`
ends with the flag still set; through any sequence of such iterations and ticker firings
the flag stays set and no full refresh runs, and the first iteration that then finds the
frame state `FIXED` performs the refresh and clears the flag. -/
theorem due_flag_is_deferred (s : State) (pre : List Step) (inp : LoopInput)
    (hr : s.readyForWeatherUpdate = true)
    (hm : ∀ st ∈ pre, st.midTransition = true)
    (hf : inp.frameState = FrameState.FIXED) :
    (∀ inp0 : LoopInput, inp0.frameState ≠ FrameState.FIXED →
      (loop inp0 s).readyForWeatherUpdate = true) ∧
    (runSteps pre s).readyForWeatherUpdate = true ∧
    fullRefreshes (runSteps pre s).trace = fullRefreshes s.trace ∧
    fullRefreshes (loop inp (runSteps pre s)).trace = fullRefreshes s.trace + 1 ∧
    (loop inp (runSteps pre s)).readyForWeatherUpdate = false := by
  obtain ⟨h1, h2⟩ := runSteps_midTransition pre s hm hr
  refine ⟨?_, h1, h2, ?_, loop_ready_of_refresh inp _ h1 hf⟩
  · intro inp0 h0
    rw [loop_ready_of_not_fixed inp0 s h0, hr]
  · rw [loop_fullRefreshes, h2]
    simp [h1, hf]

/-- C6: `updateData` performs, in this order and each exactly once, the time refresh, the
conditions refresh, the forecast refresh and the temperature refresh, and returns with
`readyForWeatherUpdate` false whatever it was before. -/
theorem full_refresh_sequence (formattedTime : String) (value : Int) (now : Nat) (s : State) :
    refreshSteps (updateData formattedTime value now s).trace =
      refreshSteps s.trace ++ [.time, .conditions, .forecast, .temperature] ∧
    (updateData formattedTime value now s).readyForWeatherUpdate = false :=
  ⟨updateData_refreshSteps formattedTime value now s,
   updateData_readyForWeatherUpdate formattedTime value now s⟩

/-- C9: with `lastTemperatureUpdate == 0` the sampling condition holds for every value of
`millis()`, and an iteration of `loop` started in that state samples the temperature at
least once. -/
theorem first_sample_is_always_due (inp : LoopInput) (s : State)
    (h : s.lastTemperatureUpdate = 0) :
    (∀ now : Nat, temperatureDue now s = true) ∧
    samplerCalls s.trace + 1 ≤ samplerCalls (loop inp s).trace := by
  constructor
  · intro now
    simp [temperatureDue, h]
  · rw [loop_samplerCalls, temperatureDue_loopUi]
    by_cases hc : s.readyForWeatherUpdate = true ∧ inp.frameState = FrameState.FIXED
    · rw [(loopRefresh_fields inp s).2]
      simp [hc]
    · have hs : loopRefresh inp s = s := by
        unfold loopRefresh
        have h2 : (s.readyForWeatherUpdate && inp.frameState == FrameState.FIXED) = false := by
          simpa using hc
        simp [h2]
      rw [hs]
      simp [temperatureDue, h]

/-! ## Instances of the theorems at concrete inputs -/

theorem sampler_publishes_mean_of_last_18_witness :
    initialState.temperature = INT32_MAX ∧
    initialState.temperatureMA.dataPointsCount = TEMPERATURE_MA_POINT_COUNT ∧
    (∀ p ∈ [((341 : Int), 5), (512, 10006)], isInt p.1) ∧
    (runSampler [(341, 5), (512, 10006)] initialState).temperature =
      round (mean (lastN 18 (List.replicate 17 (conv 341) ++ convAll [(341, 5), (512, 10006)]))) :=
  ⟨rfl, rfl, by decide,
    (sampler_publishes_mean_of_last_18 initialState 341 5 [(512, 10006)] rfl rfl
      (by decide)).2.1⟩

theorem first_call_fills_window_witness :
    initialState.temperature = INT32_MAX ∧
    initialState.temperatureMA.dataPointsCount = TEMPERATURE_MA_POINT_COUNT ∧
    (updateTemperature 341 5 initialState).temperatureMA.values = List.replicate 18 (conv 341) ∧
    (updateTemperature 341 5 initialState).temperature = round (conv 341) :=
  ⟨rfl, rfl, (first_call_fills_window initialState 341 5 rfl rfl).1,
    (first_call_fills_window initialState 341 5 rfl rfl).2.1⟩

theorem sample_gate_is_strict_witness :
    (loopRefresh transitionInput { initialState with lastTemperatureUpdate := 1 }).lastTemperatureUpdate
      ≠ 0 ∧
    samplerCalls (loop transitionInput { initialState with lastTemperatureUpdate := 1 }).trace =
      samplerCalls
        (loopRefresh transitionInput { initialState with lastTemperatureUpdate := 1 }).trace +
      (if 10000 < elapsed transitionInput.checkNow
        (loopRefresh transitionInput
          { initialState with lastTemperatureUpdate := 1 }).lastTemperatureUpdate then 1 else 0) :=
  ⟨by decide,
    sample_gate_is_strict transitionInput { initialState with lastTemperatureUpdate := 1 }
      (by decide)⟩

theorem due_flag_is_deferred_witness :
    (setReadyForWeatherUpdate initialState).readyForWeatherUpdate = true ∧
    (∀ st ∈ [Step.iter transitionInput, Step.tick, Step.iter transitionInput],
      st.midTransition = true) ∧
    settledInput.frameState = FrameState.FIXED ∧
    fullRefreshes (loop settledInput
      (runSteps [Step.iter transitionInput, Step.tick, Step.iter transitionInput]
        (setReadyForWeatherUpdate initialState))).trace =
      fullRefreshes (setReadyForWeatherUpdate initialState).trace + 1 :=
  ⟨rfl, by decide, rfl,
    (due_flag_is_deferred (setReadyForWeatherUpdate initialState)
      [Step.iter transitionInput, Step.tick, Step.iter transitionInput] settledInput
      rfl (by decide) rfl).2.2.2.1⟩

theorem constant_341_publishes_100_witness :
    initialState.temperature = INT32_MAX ∧
    initialState.temperatureMA.dataPointsCount = TEMPERATURE_MA_POINT_COUNT ∧
    [5, 10006, 20007] ≠ ([] : List Nat) ∧
    (runSampler ([5, 10006, 20007].map (fun t => ((341 : Int), t))) initialState).temperature
      = 100 :=
  ⟨rfl, rfl, by decide,
    (constant_341_publishes_100 initialState [5, 10006, 20007] rfl rfl (by decide)).1⟩

theorem first_sample_is_always_due_witness :
    initialState.lastTemperatureUpdate = 0 ∧
    samplerCalls initialState.trace + 1 ≤ samplerCalls (loop transitionInput initialState).trace :=
  ⟨rfl, (first_sample_is_always_due transitionInput initialState rfl).2⟩

theorem temperature_stays_in_range_witness :
    initialState.temperature = INT32_MAX ∧
    initialState.temperatureMA.dataPointsCount = TEMPERATURE_MA_POINT_COUNT ∧
    (∀ p ∈ [((0 : Int), 5), (1023, 10006)], 0 ≤ p.1 ∧ p.1 ≤ 1023) ∧
    0 ≤ (runSampler [(0, 5), (1023, 10006)] initialState).temperature ∧
    (runSampler [(0, 5), (1023, 10006)] initialState).temperature ≤ 300 :=
  ⟨rfl, rfl, by decide,
    (temperature_stays_in_range initialState 0 5 [(1023, 10006)] rfl rfl (by decide)).1,
    (temperature_stays_in_range initialState 0 5 [(1023, 10006)] rfl rfl (by decide)).2.1⟩

end SmartTube
